import Mathlib

/-!
Verification of the finance-agent document ingestion and retrieval pipeline.

The definitions below are a shallow embedding of `src/retriever/vector_store.py`
(class `AsyncVectorStore` and the module-level cache `get_vector_store`), of the
name bindings of `src/retriever/embedder.py`, and of the count calls made by
`src/scripts/reddit_pull.py`.  Chunk production is kept abstract (the text
splitter is an external library), so documents are modelled by an arbitrary type
`δ` together with a splitting function `split : δ → List α` yielding the ordered
chunks of a document.
-/

/-- Pipeline configuration, after the keys of the `VECTOR_STORE_CONFIG` dict in
`src/retriever/config.py` that the pipeline code reads.  Python compares configs
with dict equality, i.e. all fields compare equal.  Sizes are Python ints. -/
structure PipelineConfig where
  collection_name : String
  persist_directory : String
  chunk_size : Int
  chunk_overlap : Int
  batch_size : Int
  top_k : Int
  deriving DecidableEq

/-- Errors that can surface while constructing an `AsyncVectorStore`.
`configError` is the error named by the spec's taxonomy (§7); the repository
itself defines no such class and never raises it.  `valueError` is Python's
ValueError as raised by the external text-splitter library's constructor.
`importError` is Python's ImportError, raised when a module import fails to
resolve a name. -/
inductive PipelineError where
  | configError : String → PipelineError
  | valueError : String → PipelineError
  | importError : String → PipelineError
  deriving DecidableEq

/-- State held by a constructed `AsyncVectorStore` that the claims depend on:
the stored configuration (`self.config`, line 18 of vector_store.py). -/
structure VectorStoreState where
  config : PipelineConfig
  deriving DecidableEq

/-- `AsyncVectorStore.__init__` (vector_store.py lines 17-34), as it runs once
an embedder is in hand (the failing get_embedder module import of line 9 is
modelled separately, see `AsyncVectorStore.construct`): stores the config,
opens the Chroma collection, and constructs the RecursiveCharacterTextSplitter
from the configured chunk_size and chunk_overlap (line 26).  The repository
performs no validation of any configuration field and defines no ConfigError
anywhere; the only configuration check at construction time belongs to the
external text-splitter library, whose constructor raises ValueError when
chunk_overlap strictly exceeds chunk_size and accepts everything else.
Tracker logging failures are caught and printed (line 42). -/
def AsyncVectorStore.init (cfg : PipelineConfig) : Except PipelineError VectorStoreState :=
  if cfg.chunk_size < cfg.chunk_overlap then
    Except.error (PipelineError.valueError "larger chunk overlap than chunk size")
  else
    Except.ok ⟨cfg⟩

/-- A configuration that the spec calls invalid: `chunk_overlap = chunk_size`
(so overlap ≥ chunk_size) and a non-positive `batch_size`. -/
def invalid_config : PipelineConfig :=
  { collection_name := "documents"
    persist_directory := "chroma_db"
    chunk_size := 1000
    chunk_overlap := 1000
    batch_size := 0
    top_k := 5 }

/-- Top-level names defined by `src/retriever/embedder.py`: the module defines
only `get_local_embedder` (lines 8-10). -/
def embedder_module_names : List String := ["get_local_embedder"]

/-- Resolution of `from retriever.embedder import name`: the import succeeds
exactly when the embedder module defines `name`. -/
def resolve_embedder_import (name : String) : Option String :=
  embedder_module_names.find? (fun n => n == name)

/-- The name the vector-store module imports for its embedder
(vector_store.py line 9, used on line 19). -/
def vector_store_embedder_import : String := "get_embedder"

/-- A pipeline object as handed to callers of `get_vector_store`. -/
structure PipelineHandle where
  state : VectorStoreState
  deriving DecidableEq

/-- `get_vector_store(config)` reached through the module import: loading
`retriever.vector_store` first resolves `get_embedder` from
`retriever.embedder` (line 9); only if that import succeeds does the module
body run, making `get_vector_store` available and the constructor able to call
the embedder (line 19).  The result is the pipeline object produced for the
caller, if any. -/
def get_vector_store_via_import (cfg : PipelineConfig) : Option PipelineHandle :=
  (resolve_embedder_import vector_store_embedder_import).map (fun _ => ⟨⟨cfg⟩⟩)

/-- Construction of an `AsyncVectorStore` as reachable in the program: loading
`retriever.vector_store` must first resolve `get_embedder` from
`retriever.embedder` (line 9), and only then can `__init__` run (line 19
calls the resolved embedder).  While that name stays unresolved, every
construction fails with the ImportError, before any configuration field is
examined. -/
def AsyncVectorStore.construct (cfg : PipelineConfig) : Except PipelineError VectorStoreState :=
  match resolve_embedder_import vector_store_embedder_import with
  | none => Except.error (PipelineError.importError "get_embedder")
  | some _ => AsyncVectorStore.init cfg

/-- Method names defined in class `AsyncVectorStore`
(vector_store.py lines 16-143). -/
def async_vector_store_methods : List String :=
  ["__init__", "_log_configs", "add_documents", "add_documents_stream",
   "_chunk_consumer", "_add_batch_async", "_chunk_producer", "search"]

/-- The record-count operation `src/scripts/reddit_pull.py` invokes on the
pipeline before and after `add_documents` (lines 151 and 180). -/
def reddit_pull_count_method : String := "get_document_count"

/-- Python attribute lookup of a method on an `AsyncVectorStore` instance:
succeeds exactly when the class defines the name. -/
def lookup_method (name : String) : Option String :=
  async_vector_store_methods.find? (fun n => n == name)

/-- `AsyncVectorStore._chunk_producer` (vector_store.py lines 98-105): iterate
the input documents in order, split each into chunks with the text splitter,
push every chunk onto the queue in chunk order, and finally push the `None`
sentinel.  The queue is FIFO with this single producer and a single consumer,
so the consumer observes exactly this sequence of queue items. -/
def chunk_producer {δ α : Type} (split : δ → List α) (documents : List δ) : List (Option α) :=
  (documents.flatMap split).map some ++ [none]

/-- `AsyncVectorStore._chunk_consumer` (vector_store.py lines 76-92): pull
items from the queue until the `None` sentinel; append each chunk to the
current batch and flush (`_add_batch_async`) whenever `len(batch) >=
batch_size`; after the sentinel, flush a non-empty trailing batch.  The result
is the list of flushed batches in flush order.  `batch_size` is a Python int;
any non-positive value makes `len(batch) >= batch_size` true immediately,
which batch size 0 reproduces here.  An exhausted queue without a sentinel
would suspend the consumer forever, so no further batch is flushed in that
(unreachable) case. -/
def chunk_consumer {α : Type} (batch_size : Nat) :
    List (Option α) → List α → List (List α)
  | [], _ => []
  | none :: _, batch => if batch.isEmpty then [] else [batch]
  | some c :: rest, batch =>
    if batch_size ≤ (batch ++ [c]).length then
      (batch ++ [c]) :: chunk_consumer batch_size rest []
    else
      chunk_consumer batch_size rest (batch ++ [c])

/-- `AsyncVectorStore.add_documents_stream` (vector_store.py lines 69-74):
create the queue, run `_chunk_producer` and `_chunk_consumer` over it, and
gather both.  With one FIFO queue between one producer and one consumer the
batches flushed to the vector index are exactly the consumer's run over the
producer's item sequence, starting from an empty batch. -/
def add_documents_stream {δ α : Type} (split : δ → List α) (batch_size : Nat)
    (documents : List δ) : List (List α) :=
  chunk_consumer batch_size (chunk_producer split documents) []

/-- The Chroma collection's record count after the flushed batches have been
inserted: each flush inserts its batch of records
(`vector_store.add_documents`, line 96). -/
def index_count_after {α : Type} (count0 : Nat) (flushes : List (List α)) : Nat :=
  count0 + (flushes.map List.length).sum

/-- Twenty one-chunk documents, the scenario of the spec's batch test. -/
def sample_docs : List (List Nat) := (List.range 20).map (fun i => [i])

/-- A record stored in the vector index: its page content and metadata. -/
structure IndexedRecord where
  text : String
  metadata : List (String × String)
  deriving DecidableEq

/-- Modelled from the spec: the Vector Index collaborator (Chroma) is external
to the repository, and §6 gives its query contract.  `records` is the stored
collection and `score` the similarity measure for a query, with higher score
more relevant (the documented reference convention). -/
structure VectorIndex where
  records : List IndexedRecord
  score : String → IndexedRecord → Int

/-- Exact-match metadata filter of the index query: a record passes when every
filter pair occurs in its metadata; no filter keeps everything. -/
def matches_filter (filter : Option (List (String × String))) (r : IndexedRecord) : Bool :=
  match filter with
  | none => true
  | some f => f.all (fun kv => r.metadata.contains kv)

/-- Modelled from the spec: Chroma's `similarity_search_with_score` is an
external capability; per §6 the index query returns an ordered sequence of
(text, metadata, score) for the k nearest records under the filter, most
relevant (highest score) first. -/
def VectorIndex.similarity_search_with_score (idx : VectorIndex) (query : String)
    (k : Nat) (filter : Option (List (String × String))) : List (IndexedRecord × Int) :=
  (((idx.records.filter (matches_filter filter)).map
      (fun r => (r, idx.score query r))).mergeSort
    (fun a b => decide (b.2 ≤ a.2))).take k

/-- A constructed store as `search` sees it: its config and its index. -/
structure SearchState where
  config : PipelineConfig
  index : VectorIndex

/-- `AsyncVectorStore.search` (vector_store.py lines 107-143): default `top_k`
from the config when the caller passes none, delegate to
`similarity_search_with_score`, log search metrics, and return the results
unchanged.  The config's `top_k` is a Python int; a non-positive default asks
the index for no results. -/
def AsyncVectorStore.search (s : SearchState) (query : String) (top_k : Option Nat)
    (filter : Option (List (String × String))) : List (IndexedRecord × Int) :=
  s.index.similarity_search_with_score query (top_k.getD s.config.top_k.toNat) filter

/-- The module-level cache of `retriever.vector_store` (lines 12-13):
`_vector_store_instance` and `_vector_store_config`.  Constructed instances
are identified by a construction counter, so instances from distinct
constructions are distinct objects. -/
structure Registry where
  inst_id : Option Nat
  inst_cfg : Option PipelineConfig
  next_id : Nat
  deriving DecidableEq

/-- The cache at module load: no instance, no config. -/
def Registry.start : Registry := ⟨none, none, 0⟩

/-- Cached instance ids were produced by earlier constructions, hence are
below the construction counter. -/
def Registry.Wf (r : Registry) : Prop :=
  ∀ i, r.inst_id = some i → i < r.next_id

/-- `get_vector_store` (vector_store.py lines 146-154): if an instance is
cached and the cached config equals the argument (Python dict equality, i.e.
field equality), return the cached instance; otherwise construct a fresh
instance, cache it together with the config (replacing the single global
slot), and return it. -/
def get_vector_store (cfg : PipelineConfig) (r : Registry) : Nat × Registry :=
  match r.inst_id with
  | some i =>
    if r.inst_cfg = some cfg then (i, r)
    else (r.next_id, ⟨some r.next_id, some cfg, r.next_id + 1⟩)
  | none => (r.next_id, ⟨some r.next_id, some cfg, r.next_id + 1⟩)

/-- A config equal to `VECTOR_STORE_CONFIG` on the modelled fields. -/
def cfg_a : PipelineConfig :=
  { collection_name := "documents"
    persist_directory := "chroma_db"
    chunk_size := 1000
    chunk_overlap := 200
    batch_size := 64
    top_k := 5 }

/-- A config differing from `cfg_a` only in its persist location. -/
def cfg_b : PipelineConfig :=
  { cfg_a with persist_directory := "chroma_db_2" }

/-- A task of `add_documents_stream`, summarised by when it would finish and
whether it finishes normally (`ok = true`) or by raising. -/
structure TaskRun where
  finish : Nat
  ok : Bool
  deriving DecidableEq

/-- `asyncio.gather(producer_task, consumer_task)` with the default
`return_exceptions=False`, per the documented asyncio semantics
(vector_store.py line 74): when both tasks finish normally, the `await`
returns once both have finished; when a task raises, the first raised
exception propagates to the awaiter as soon as that task finishes, and the
remaining task is neither cancelled nor awaited.  The value is the time at
which `add_documents_stream` returns to its caller. -/
def gather_return (producer consumer : TaskRun) : Nat :=
  if producer.ok && consumer.ok then max producer.finish consumer.finish
  else if producer.ok then consumer.finish
  else if consumer.ok then producer.finish
  else min producer.finish consumer.finish

/-- Both tasks of the `add` call have completed by time `t`. -/
def both_completed_by (producer consumer : TaskRun) (t : Nat) : Prop :=
  producer.finish ≤ t ∧ consumer.finish ≤ t

theorem chunk_consumer_sentinel {α : Type} (b : Nat) (t : List (Option α)) (batch : List α) :
    chunk_consumer b (none :: t) batch = if batch.isEmpty then [] else [batch] := by
  simp [chunk_consumer]

theorem chunk_consumer_flush {α : Type} (b : Nat) (c : α) (t : List (Option α))
    (batch : List α) (h : b ≤ batch.length + 1) :
    chunk_consumer b (some c :: t) batch = (batch ++ [c]) :: chunk_consumer b t [] := by
  simp [chunk_consumer, h]

theorem chunk_consumer_stay {α : Type} (b : Nat) (c : α) (t : List (Option α))
    (batch : List α) (h : ¬ b ≤ batch.length + 1) :
    chunk_consumer b (some c :: t) batch = chunk_consumer b t (batch ++ [c]) := by
  simp [chunk_consumer, h]

theorem nat_ceil_div_one {m b : Nat} (h1 : 1 ≤ m) (h2 : m ≤ b) : (m + b - 1) / b = 1 := by
  have h3 : m + b - 1 = (m - 1) + b := by omega
  rw [h3, Nat.add_div_right _ (by omega), Nat.div_eq_of_lt (by omega)]

theorem chunk_consumer_flatten {α : Type} (b : Nat) (cs : List α) :
    ∀ acc : List α, (chunk_consumer b (cs.map some ++ [none]) acc).flatten = acc ++ cs := by
  induction cs with
  | nil =>
    intro acc
    rw [List.map_nil, List.nil_append, chunk_consumer_sentinel]
    cases acc <;> simp
  | cons c cs ih =>
    intro acc
    rw [List.map_cons, List.cons_append]
    by_cases h : b ≤ acc.length + 1
    · rw [chunk_consumer_flush b c _ acc h]
      simp [ih]
    · rw [chunk_consumer_stay b c _ acc h, ih (acc ++ [c])]
      simp

theorem chunk_consumer_length {α : Type} (b : Nat) (hb : 1 ≤ b) (cs : List α) :
    ∀ acc : List α, acc.length < b →
      (chunk_consumer b (cs.map some ++ [none]) acc).length
        = (acc.length + cs.length + b - 1) / b := by
  induction cs with
  | nil =>
    intro acc hacc
    rw [List.map_nil, List.nil_append, chunk_consumer_sentinel]
    cases acc with
    | nil =>
      rw [Nat.div_eq_of_lt (by simp; omega)]
      simp
    | cons a l =>
      have hr : (a :: l).length + ([] : List α).length + b - 1 = (a :: l).length + b - 1 := by
        simp
      rw [hr, nat_ceil_div_one (by simp) (Nat.le_of_lt hacc)]
      simp
  | cons c cs ih =>
    intro acc hacc
    rw [List.map_cons, List.cons_append]
    by_cases h : b ≤ acc.length + 1
    · have hlen : acc.length + 1 = b := by omega
      rw [chunk_consumer_flush b c _ acc h, List.length_cons, ih [] (by simp; omega)]
      have hr : acc.length + (c :: cs).length + b - 1
          = (List.length ([] : List α) + cs.length + b - 1) + b := by
        simp only [List.length_cons, List.length_nil]
        omega
      rw [hr, Nat.add_div_right _ (by omega)]
    · have hlt : (acc ++ [c]).length < b := by
        simp only [List.length_append, List.length_cons, List.length_nil]
        omega
      rw [chunk_consumer_stay b c _ acc h, ih (acc ++ [c]) hlt]
      congr 1
      simp only [List.length_append, List.length_cons, List.length_nil]
      omega

theorem chunk_consumer_batch_bound {α : Type} (b : Nat) (cs : List α) :
    ∀ acc : List α, acc.length < b →
      ∀ batch ∈ chunk_consumer b (cs.map some ++ [none]) acc, batch.length ≤ b := by
  induction cs with
  | nil =>
    intro acc hacc batch hm
    rw [List.map_nil, List.nil_append, chunk_consumer_sentinel] at hm
    cases acc with
    | nil => simp at hm
    | cons a l =>
      simp only [List.isEmpty_cons, Bool.false_eq_true, if_false, List.mem_singleton] at hm
      subst hm
      omega
  | cons c cs ih =>
    intro acc hacc batch hm
    rw [List.map_cons, List.cons_append] at hm
    by_cases h : b ≤ acc.length + 1
    · rw [chunk_consumer_flush b c _ acc h] at hm
      rcases List.mem_cons.mp hm with rfl | hm2
      · simp only [List.length_append, List.length_cons, List.length_nil]
        omega
      · exact ih [] (by simp; omega) batch hm2
    · rw [chunk_consumer_stay b c _ acc h] at hm
      have hlt : (acc ++ [c]).length < b := by
        simp only [List.length_append, List.length_cons, List.length_nil]
        omega
      exact ih (acc ++ [c]) hlt batch hm

theorem chunk_consumer_zero_singletons {α : Type} (cs : List α) :
    chunk_consumer 0 (cs.map some ++ [none]) [] = cs.map (fun c => [c]) := by
  induction cs with
  | nil => simp [chunk_consumer]
  | cons c cs ih => simp [chunk_consumer, ih]

/-- C1: during one add call the consumer flushes a batch each time it reaches
batch_size, the sentinel pushed after the last chunk ends the stream, and a
non-empty trailing batch is flushed before the consumer terminates, so with n
chunks and batch size b ≥ 1 exactly ceil(n/b) flushes occur and every chunk is
flushed exactly once, in order. -/
theorem add_stream_flushes_ceil {δ α : Type} (split : δ → List α) (b : Nat) (hb : 1 ≤ b)
    (documents : List δ) :
    (add_documents_stream split b documents).flatten = documents.flatMap split ∧
      (add_documents_stream split b documents).length
        = ((documents.flatMap split).length + b - 1) / b := by
  constructor
  · simpa [add_documents_stream, chunk_producer] using
      chunk_consumer_flatten b (documents.flatMap split) []
  · simpa [add_documents_stream, chunk_producer] using
      chunk_consumer_length b hb (documents.flatMap split) [] (by simpa using hb)

theorem add_stream_flushes_ceil_witness :
    (1 ≤ 8 ∧
      ((add_documents_stream id 8 sample_docs).flatten = sample_docs.flatMap id ∧
        (add_documents_stream id 8 sample_docs).length
          = ((sample_docs.flatMap id).length + 8 - 1) / 8)) ∧
      (add_documents_stream id 8 sample_docs).map List.length = [8, 8, 4] :=
  ⟨⟨by decide, add_stream_flushes_ceil id 8 (by decide) sample_docs⟩, by decide⟩

/-- C2: search with an explicit top_k returns a finite sequence of at most k
results, ordered most-relevant first, each result's score at least the next
one's under the higher-score-is-better convention. -/
theorem search_returns_at_most_k_sorted (s : SearchState) (q : String) (k : Nat)
    (f : Option (List (String × String))) :
    (AsyncVectorStore.search s q (some k) f).length ≤ k ∧
      List.Chain' (fun a b : IndexedRecord × Int => b.2 ≤ a.2)
        (AsyncVectorStore.search s q (some k) f) := by
  constructor
  · simp [AsyncVectorStore.search, VectorIndex.similarity_search_with_score, List.length_take]
  · have hp : (((s.index.records.filter (matches_filter f)).map
        (fun r => (r, s.index.score q r))).mergeSort
          (fun a b : IndexedRecord × Int => decide (b.2 ≤ a.2))).Pairwise
        (fun a b : IndexedRecord × Int => decide (b.2 ≤ a.2)) := by
      apply List.sorted_mergeSort
      · intro a b c hab hbc
        simp only [decide_eq_true_eq] at *
        omega
      · intro a b
        rcases Int.le_total a.2 b.2 with h | h <;> simp [h]
    have hp' : (AsyncVectorStore.search s q (some k) f).Pairwise
        (fun a b : IndexedRecord × Int => b.2 ≤ a.2) := by
      have := (hp.sublist (List.take_sublist k _)).imp
        (fun h => by simpa using h)
      simpa [AsyncVectorStore.search, VectorIndex.similarity_search_with_score] using this
    exact hp'.chain'

/-- C3: the vector-store module imports its embedder under the name
get_embedder, but the embedder module defines only get_local_embedder, so for
every config the lookup fails and get_vector_store produces no pipeline
object. -/
theorem get_vector_store_embedder_import_fails (cfg : PipelineConfig) :
    resolve_embedder_import vector_store_embedder_import = none ∧
      get_vector_store_via_import cfg = none := by
  have h : resolve_embedder_import vector_store_embedder_import = none := by decide
  refine ⟨h, ?_⟩
  unfold get_vector_store_via_import
  rw [h]
  rfl

/-- C4: with a positive batch size, every batch flushed to the vector index
during an add call contains at most batch_size records. -/
theorem flush_batch_never_exceeds_batch_size {δ α : Type} (split : δ → List α) (b : Nat)
    (hb : 1 ≤ b) (documents : List δ) :
    ∀ batch ∈ add_documents_stream split b documents, batch.length ≤ b := by
  intro batch hm
  refine chunk_consumer_batch_bound b (documents.flatMap split) [] (by simpa using hb) batch ?_
  simpa [add_documents_stream, chunk_producer] using hm

theorem flush_batch_never_exceeds_batch_size_witness :
    1 ≤ 8 ∧ [16, 17, 18, 19] ∈ add_documents_stream id 8 sample_docs ∧
      ([16, 17, 18, 19] : List Nat).length ≤ 8 :=
  ⟨by decide, by decide,
    flush_batch_never_exceeds_batch_size id 8 (by decide) sample_docs
      [16, 17, 18, 19] (by decide)⟩

/-- C5 counterexample: a configuration with chunk_overlap equal to chunk_size
and batch_size zero is accepted by the constructor without any error — the
external splitter only rejects strictly larger overlaps — and the public
construction path fails with the ImportError of the embedder import, not with
a ConfigError; so no ConfigError is raised at construction for this invalid
config. -/
theorem invalid_config_constructs :
    invalid_config.chunk_size ≤ invalid_config.chunk_overlap ∧
      invalid_config.batch_size ≤ 0 ∧
      AsyncVectorStore.init invalid_config = Except.ok ⟨invalid_config⟩ ∧
      AsyncVectorStore.construct invalid_config
        = Except.error (PipelineError.importError "get_embedder") :=
  ⟨by decide, by decide, rfl, by
    unfold AsyncVectorStore.construct
    rw [show resolve_embedder_import vector_store_embedder_import = none from by decide]⟩

/-- C5 amended: construction never fails with ConfigError; the repository
performs no configuration validation of its own.  Given an embedder, the
constructor succeeds exactly when chunk_overlap ≤ chunk_size — the one
rejection, for strictly larger overlaps, is the external text splitter's
ValueError, never a ConfigError — so overlap equal to chunk_size and
non-positive batch sizes are accepted; through the public entry point every
construction currently fails with the get_embedder ImportError before any
config field is examined; and batch_size is first consulted during ingestion,
where a non-positive value yields single-chunk batches rather than an
error. -/
theorem init_never_raises_config_error :
    (∀ cfg : PipelineConfig,
        AsyncVectorStore.init cfg = Except.ok ⟨cfg⟩ ↔ cfg.chunk_overlap ≤ cfg.chunk_size) ∧
      (∀ (cfg : PipelineConfig) (s : String),
        AsyncVectorStore.init cfg ≠ Except.error (PipelineError.configError s)) ∧
      (∀ cfg : PipelineConfig,
        AsyncVectorStore.construct cfg
          = Except.error (PipelineError.importError "get_embedder")) ∧
      ∀ cs : List Nat, chunk_consumer 0 (cs.map some ++ [none]) [] = cs.map (fun c => [c]) := by
  have himp : resolve_embedder_import vector_store_embedder_import = none := by decide
  refine ⟨?_, ?_, ?_, fun cs => chunk_consumer_zero_singletons cs⟩
  · intro cfg
    unfold AsyncVectorStore.init
    by_cases h : cfg.chunk_size < cfg.chunk_overlap
    · rw [if_pos h]
      constructor
      · intro he
        exact absurd he (by simp)
      · intro hle
        omega
    · rw [if_neg h]
      constructor
      · intro _
        omega
      · intro _
        rfl
  · intro cfg s
    by_cases h : cfg.chunk_size < cfg.chunk_overlap <;>
      simp [AsyncVectorStore.init, h]
  · intro cfg
    unfold AsyncVectorStore.construct
    rw [himp]

theorem registry_start_wf : ∀ i, Registry.start.inst_id = some i → i < Registry.start.next_id :=
  fun _ h => nomatch h

/-- C6: a second get_vector_store call with a field-equal config returns the
cached instance and leaves the cache unchanged, and a further call with a
config differing in any field constructs a distinct instance and replaces the
cached singleton. -/
theorem get_vector_store_singleton_cache (cfg cfg' : PipelineConfig) (r : Registry)
    (hwf : r.Wf) (hne : cfg' ≠ cfg) :
    (get_vector_store cfg (get_vector_store cfg r).2).1 = (get_vector_store cfg r).1 ∧
      (get_vector_store cfg (get_vector_store cfg r).2).2 = (get_vector_store cfg r).2 ∧
      (get_vector_store cfg' (get_vector_store cfg r).2).1 ≠ (get_vector_store cfg r).1 ∧
      (get_vector_store cfg' (get_vector_store cfg r).2).2.inst_cfg = some cfg' ∧
      (get_vector_store cfg' (get_vector_store cfg r).2).2.inst_id
        = some (get_vector_store cfg' (get_vector_store cfg r).2).1 := by
  obtain ⟨oi, oc, n⟩ := r
  have hne' : ∀ c : PipelineConfig, some c = some cfg' → c = cfg' := by
    intro c hc
    exact Option.some.inj hc
  cases oi with
  | none =>
    have h1 : get_vector_store cfg ⟨none, oc, n⟩ = (n, ⟨some n, some cfg, n + 1⟩) := rfl
    simp only [h1]
    have h2 : get_vector_store cfg ⟨some n, some cfg, n + 1⟩
        = (n, ⟨some n, some cfg, n + 1⟩) := by
      simp [get_vector_store]
    have h3 : get_vector_store cfg' ⟨some n, some cfg, n + 1⟩
        = (n + 1, ⟨some (n + 1), some cfg', n + 2⟩) := by
      simp only [get_vector_store]
      rw [if_neg (by simp [hne.symm])]
    simp [h2, h3]
  | some i =>
    by_cases hc : oc = some cfg
    · have hin : i < n := hwf i rfl
      have h1 : get_vector_store cfg ⟨some i, oc, n⟩ = (i, ⟨some i, oc, n⟩) := by
        simp [get_vector_store, hc]
      simp only [h1]
      have h3 : get_vector_store cfg' ⟨some i, oc, n⟩
          = (n, ⟨some n, some cfg', n + 1⟩) := by
        simp only [get_vector_store]
        rw [if_neg (by simp [hc, hne.symm])]
      simp [h1, h3]
      omega
    · have h1 : get_vector_store cfg ⟨some i, oc, n⟩ = (n, ⟨some n, some cfg, n + 1⟩) := by
        simp [get_vector_store, hc]
      simp only [h1]
      have h2 : get_vector_store cfg ⟨some n, some cfg, n + 1⟩
          = (n, ⟨some n, some cfg, n + 1⟩) := by
        simp [get_vector_store]
      have h3 : get_vector_store cfg' ⟨some n, some cfg, n + 1⟩
          = (n + 1, ⟨some (n + 1), some cfg', n + 2⟩) := by
        simp only [get_vector_store]
        rw [if_neg (by simp [hne.symm])]
      simp [h2, h3]

theorem get_vector_store_singleton_cache_witness :
    Registry.Wf Registry.start ∧ cfg_b ≠ cfg_a ∧
      ((get_vector_store cfg_a (get_vector_store cfg_a Registry.start).2).1
          = (get_vector_store cfg_a Registry.start).1 ∧
        (get_vector_store cfg_a (get_vector_store cfg_a Registry.start).2).2
          = (get_vector_store cfg_a Registry.start).2 ∧
        (get_vector_store cfg_b (get_vector_store cfg_a Registry.start).2).1
          ≠ (get_vector_store cfg_a Registry.start).1 ∧
        (get_vector_store cfg_b (get_vector_store cfg_a Registry.start).2).2.inst_cfg
          = some cfg_b ∧
        (get_vector_store cfg_b (get_vector_store cfg_a Registry.start).2).2.inst_id
          = some (get_vector_store cfg_b (get_vector_store cfg_a Registry.start).2).1) :=
  ⟨registry_start_wf, by decide,
    get_vector_store_singleton_cache cfg_a cfg_b Registry.start
      registry_start_wf (by decide)⟩

/-- C7: the concatenation of the flushed batches equals the chunk sequence of
the submitted documents, so chunks of an earlier document are inserted no
later than those of a later document and, within one document, in chunk
order. -/
theorem chunks_inserted_in_submission_order {δ α : Type} (split : δ → List α) (b : Nat)
    (documents : List δ) :
    (add_documents_stream split b documents).flatten = documents.flatMap split := by
  simpa [add_documents_stream, chunk_producer] using
    chunk_consumer_flatten b (documents.flatMap split) []

/-- C8: the count operation the repository's own ingestion script invokes on
the pipeline is not defined by the AsyncVectorStore class, so the pipeline
exposes no record-count operation and the lookup fails. -/
theorem reddit_pull_count_method_missing :
    lookup_method reddit_pull_count_method = none := by decide

/-- C9 counterexample: when the consumer task raises at time 1 while the
producer task would finish at time 5, gather propagates the exception at time
1, so add returns to the caller before both tasks have completed. -/
theorem gather_error_returns_before_both_complete :
    ¬ both_completed_by ⟨5, true⟩ ⟨1, false⟩ (gather_return ⟨5, true⟩ ⟨1, false⟩) := by
  intro h
  have h5 : (5 : Nat) ≤ 1 := by
    simpa [both_completed_by, gather_return] using h.1
  omega

/-- C9 amended: the producer and consumer run concurrently and on normal
completion add returns exactly when the later of the two tasks finishes, hence
only after both have completed; when a task raises, gather propagates the
first exception as soon as that task finishes, without awaiting the other
task. -/
theorem add_waits_for_both_on_normal_completion (producer consumer : TaskRun)
    (hp : producer.ok = true) (hc : consumer.ok = true) :
    gather_return producer consumer = max producer.finish consumer.finish ∧
      both_completed_by producer consumer (gather_return producer consumer) := by
  have h1 : gather_return producer consumer = max producer.finish consumer.finish := by
    simp [gather_return, hp, hc]
  refine ⟨h1, ?_, ?_⟩ <;> rw [h1]
  · exact Nat.le_max_left _ _
  · exact Nat.le_max_right _ _

theorem add_waits_for_both_on_normal_completion_witness :
    (TaskRun.ok ⟨5, true⟩ = true ∧ TaskRun.ok ⟨3, true⟩ = true) ∧
      gather_return ⟨5, true⟩ ⟨3, true⟩ = max 5 3 ∧
      both_completed_by ⟨5, true⟩ ⟨3, true⟩ (gather_return ⟨5, true⟩ ⟨3, true⟩) :=
  ⟨⟨rfl, rfl⟩, add_waits_for_both_on_normal_completion ⟨5, true⟩ ⟨3, true⟩ rfl rfl⟩

/-- C10: adding the empty document sequence dispatches no insert and leaves
the index record count unchanged. -/
theorem add_empty_is_noop {δ α : Type} (split : δ → List α) (b : Nat) (count0 : Nat) :
    add_documents_stream split b ([] : List δ) = ([] : List (List α)) ∧
      index_count_after count0 (add_documents_stream split b ([] : List δ)) = count0 := by
  constructor <;>
    simp [add_documents_stream, chunk_producer, chunk_consumer, index_count_after]
